import Mathlib

/-!
Shallow embedding of `src/monitor.py` (webnovel-power-monitor).

The program is a polling change-detector: it fetches a ranking page with
retries (`fetch_html_with_retries`), extracts `(book_id, title)` pairs from
the anchors of the markup (`parse_titles`), diffs the current ids against a
persisted seen-id list (`load_seen_ids` / the comprehension in `main`),
optionally sends a Telegram notification (`send_telegram`), and persists the
current state (`save_seen_ids`).

Modelling choices
* Markup is represented by the ordered list of its `<a href=...>` elements
  (the only part of the document `parse_titles` inspects): each `Anchor`
  carries the `href` attribute and the trimmed-from-the-DOM visible text
  (`a.get_text()`).
* The regex search `re.search(r"/book/(\d+)", href)` is implemented
  character-by-character on `href.toList` (`findBookId`): first position
  where the literal `/book/` is followed by at least one digit; the captured
  group is the maximal digit run.
* Python lists/sets become Lean lists; membership tests mirror the source.
* Effects (file system, network, logging) become explicit inputs/outputs:
  the state file is an `Option StateData` input, the Telegram POST outcome is
  a `PostOutcome` input, and `mainRun` returns a `RunTrace` recording what
  was notified and persisted.  A Python exception escaping a function is an
  `Except.error` / a distinguished `RunResult` constructor.
-/

/-- An `<a>` element with an `href` attribute, as iterated by
`soup.find_all("a", href=True)`: its `href` string and its visible text
(`a.get_text()`). -/
structure Anchor where
  href : String
  text : String
deriving DecidableEq, Repr

/-- Maximal leading digit run: the text matched by the greedy `\d+` at the
start of the remainder of the string. -/
def digitsPrefix : List Char → List Char
  | [] => []
  | c :: cs => if c.isDigit then c :: digitsPrefix cs else []

/-- `re.search(r"/book/(\d+)", s)` on a character list: scan positions left
to right; at the first position where the literal `/book/` is followed by at
least one digit, return the maximal digit run (capturing group 1). -/
def findBookId : List Char → Option (List Char)
  | [] => none
  | '/' :: rest =>
    (match rest with
     | 'b' :: 'o' :: 'o' :: 'k' :: '/' :: rest2 =>
       let ds := digitsPrefix rest2
       if ds.isEmpty then findBookId rest else some ds
     | _ => findBookId rest)
  | _ :: rest => findBookId rest

/-- `m.group(1)` of `re.search(r"/book/(\d+)", href)`, or `none` when the
pattern does not occur in `href`. -/
def extractBookId (href : String) : Option String :=
  (findBookId href.toList).map fun ds => String.mk ds

/-- Python `str.strip()` on a character list: drop leading and trailing
whitespace. -/
def stripChars (cs : List Char) : List Char :=
  ((cs.dropWhile Char.isWhitespace).reverse.dropWhile Char.isWhitespace).reverse

/-- Python `str.strip()`: `(a.get_text() or "").strip()` applied to the
anchor text. -/
def pyStrip (s : String) : String :=
  String.mk (stripChars s.toList)

/-- Python `str.lower()` (ASCII case fold, which is all the blocklist
comparison needs). -/
def pyLower (s : String) : String :=
  String.mk (s.toList.map Char.toLower)

/-- The title-based filter of `parse_titles` (line 83):
`not title or len(title) < 2 or title.lower() in {"read", "add in library"}`
(on the already-stripped title; an empty title has length 0 < 2). -/
def titleBlocked (title : String) : Bool :=
  title.length < 2 || pyLower title == "read" || pyLower title == "add in library"

/-- The anchor loop of `parse_titles` (lines 76-87): for each anchor in
document order, extract the book id from `href` (skip if no match), strip the
visible text, skip blocked titles, and keep the first occurrence of each id
(`seen_ids` is the accumulator). -/
def parse_titles_aux : List Anchor → List String → List (String × String)
  | [], _ => []
  | a :: rest, seen =>
    match extractBookId a.href with
    | none => parse_titles_aux rest seen
    | some bid =>
      let title := pyStrip a.text
      if titleBlocked title then parse_titles_aux rest seen
      else if seen.contains bid then parse_titles_aux rest seen
      else (bid, title) :: parse_titles_aux rest (bid :: seen)

/-- `parse_titles(html)`: the filtered, deduplicated `(book_id, title)` list
in document order, truncated to the first 50 entries (`items[:50]`). -/
def parse_titles (anchors : List Anchor) : List (String × String) :=
  (parse_titles_aux anchors []).take 50

/-- The untruncated filtered/deduplicated list (`items` before `[:50]`);
its length is the `N` of the order-preservation property. -/
def dedupAll (anchors : List Anchor) : List (String × String) :=
  parse_titles_aux anchors []

/-- The rank of id `i` in the current entry list, as built by
`pos = {i: idx + 1 for idx, (i, _) in enumerate(current)}` in `main`
(1-based position of the first entry with that id). -/
def lookupPos : List (String × String) → String → Option Nat
  | [], _ => none
  | e :: rest, i => if e.1 = i then some 1 else (lookupPos rest i).map (· + 1)

/-- Whether `parse_titles` keeps an anchor at all: its `href` matches the
book-id pattern and its trimmed title passes the filter. -/
def anchorKept (a : Anchor) : Bool :=
  (extractBookId a.href).isSome && !(titleBlocked (pyStrip a.text))

/-! ## Transport: `fetch_html_with_retries` (lines 36-57)

Each call to `s.get(url, timeout=40)` either raises a transport exception or
returns a response with a status code and a body; both are modelled by an
`AttemptOutcome` supplied per attempt number.  `random.uniform(0, 0.8)` is
modelled by a jitter function supplied as input.  The trace records the
result (`Except.error` = the final `SystemExit`), the attempt numbers of the
`[warn]` log lines, the sleep durations, and how many attempts were made. -/

/-- Outcome of one `s.get` call: a transport-level exception, or a response
with status code and body text. -/
inductive AttemptOutcome where
  | exc
  | resp (status : Nat) (body : String)
deriving DecidableEq, Repr

/-- The body of the `for` loop in `fetch_html_with_retries` for one attempt:
`some body` when the attempt `return`s, `none` when the attempt raises (and
the loop retries).  2xx with non-empty body returns; 403/429/5xx raise
`RuntimeError`; `r.raise_for_status()` raises on the remaining 4xx; any
other status falls through to `return r.text`. -/
def attemptResult : AttemptOutcome → Option String
  | .exc => none
  | .resp s t =>
    if 200 ≤ s ∧ s < 300 ∧ t ≠ "" then some t
    else if s = 403 ∨ s = 429 ∨ 500 ≤ s then none
    else if 400 ≤ s ∧ s < 600 then none
    else some t

/-- Observable trace of one `fetch_html_with_retries` call. -/
structure FetchTrace where
  result : Except String String
  warns : List Nat
  sleeps : List ℚ
  attempts : Nat
deriving Repr

/-- The retry loop, from attempt number `attempt` with `remaining` attempts
left.  On failure it logs a warning, sleeps
`base_delay * 2 ** (attempt - 1) + random.uniform(0, 0.8)` (base delay 2,
jitter `jit attempt`), and retries; exhaustion raises `SystemExit`. -/
def fetchGo (f : Nat → AttemptOutcome) (jit : Nat → ℚ) :
    Nat → Nat → FetchTrace
  | _, 0 => ⟨.error "exhausted", [], [], 0⟩
  | attempt, r + 1 =>
    match attemptResult (f attempt) with
    | some t => ⟨.ok t, [], [], 1⟩
    | none =>
      let rest := fetchGo f jit (attempt + 1) r
      ⟨rest.result, attempt :: rest.warns,
       (2 * 2 ^ (attempt - 1) + jit attempt) :: rest.sleeps,
       rest.attempts + 1⟩

/-- `fetch_html_with_retries(url, retries=4, base_delay=2.0)`: run the loop
for attempts 1..4. -/
def fetch_html_with_retries (f : Nat → AttemptOutcome) (jit : Nat → ℚ) :
    FetchTrace :=
  fetchGo f jit 1 4

/-- Whether an `Except` result is the raised/fatal case. -/
def isRaised {α : Type} : Except String α → Bool
  | .error _ => true
  | .ok _ => false

/-! ## State Store: `load_seen_ids` / `save_seen_ids` (lines 93-109)

The state file is modelled as `Option StateData`: `none` = the file does not
exist, `some .corrupt` = it exists but reading/JSON-decoding raises,
`some (.good ids)` = it exists and decodes to a payload whose `"ids"` field
is `ids`. -/

/-- Contents of an existing state file, as far as `load_seen_ids` can tell. -/
inductive StateData where
  | good (ids : List String)
  | corrupt
deriving DecidableEq, Repr

/-- `load_seen_ids()`: `[]` when the file does not exist, the `"ids"` field
when it parses, and `[]` when reading/parsing raises (`except: return []`). -/
def load_seen_ids : Option StateData → List String
  | none => []
  | some (.good ids) => ids
  | some .corrupt => []

/-- `save_seen_ids(ids, snapshot)`: the durable payload written to the state
file (timestamp and constant source URL omitted from the model). -/
def save_seen_ids (ids : List String) (snapshot : List (String × String)) :
    List String × List (String × String) :=
  (ids, snapshot)

/-! ## Notifier: `send_telegram` (lines 113-126)

`os.getenv` yields `none` when the variable is unset; Python's
`if not token or not chat_id` also treats the empty string as missing.
If credentials are present, `requests.post` is executed *outside* any
`try` block: a transport-level error there propagates to the caller.  Only
`r.raise_for_status()` (which raises exactly on status 400-599) is wrapped
in `try/except`, so HTTP error statuses are logged and swallowed. -/

/-- Outcome of the `requests.post` call to the Telegram API, were it to be
made: a transport-level exception, or a response with the given status. -/
inductive PostOutcome where
  | transportErr
  | status (code : Nat) (body : String)
deriving DecidableEq, Repr

/-- `not x` on an optional environment string: unset or empty. -/
def credMissing : Option String → Bool
  | none => true
  | some s => s == ""

/-- What `send_telegram` did, when it returns normally. -/
inductive NotifyLog where
  | skipped
  | sent
  | httpErrorLogged (code : Nat)
deriving DecidableEq, Repr

/-- `send_telegram(message)`: skip when credentials are missing; otherwise
POST.  A transport error during the POST is uncaught (`Except.error`); a
400-599 status makes `raise_for_status` raise inside the `try`, which is
caught and logged; any other status returns normally. -/
def send_telegram (token chatId : Option String) (po : PostOutcome)
    (_message : String) : Except String NotifyLog :=
  if credMissing token || credMissing chatId then .ok .skipped
  else
    match po with
    | .transportErr => .error "transport error during requests.post"
    | .status code _body =>
      if 400 ≤ code ∧ code < 600 then .ok (.httpErrorLogged code)
      else .ok .sent

/-! ## Run Controller: `main` (lines 130-168)

`mainRun` models `main` from the point where the markup has been fetched
(`fetch_html_with_retries` is modelled separately above; a run whose fetch
exhausts its retries never reaches `main`'s remaining lines).  The trace
records the computed diff, the notification attempt (message and its entry
lines) if `send_telegram` was called, and the payload passed to the final
`save_seen_ids`, `none` when the run aborted before persisting. -/

/-- All inputs `main` reads from the world after the fetch: the markup's
anchors, the state file, the two credential variables, the
`ALWAYS_ALERT_ON_RUN` flag, and what the Telegram POST would do. -/
structure RunInput where
  markup : List Anchor
  stateFile : Option StateData
  token : Option String
  chatId : Option String
  alwaysAlert : Bool
  postOutcome : PostOutcome
deriving Repr

/-- How a `main` run ended: `SystemExit` on empty parse, an uncaught
exception escaping `send_telegram`, or normal completion. -/
inductive RunResult where
  | fatalEmptyParse
  | notifyExc (e : String)
  | done
deriving DecidableEq, Repr

/-- Observable trace of one `main` run (post-fetch). -/
structure RunTrace where
  result : RunResult
  newIds : Option (List String)
  notifyAttempt : Option (String × List String)
  persisted : Option (List String × List (String × String))
deriving Repr

/-- Line 139: `new_ids = [i for i in current_ids if i not in seen_ids]`. -/
def new_ids_of (current_ids seen_ids : List String) : List String :=
  current_ids.filter fun i => !(seen_ids.contains i)

/-- `f"{p:02d}"`: decimal rendering zero-padded to two digits. -/
def pad2 (n : Nat) : String :=
  if n < 10 then "0" ++ toString n else toString n

/-- One message line (line 155): `f"#{p:02d} — {title}"`, where `title` is
the first title in `current` carried by id `i` and `p = pos.get(i, "?")`.
(The `"?"`/missing-title fallbacks are unreachable in `main`, where every
rendered id comes from `current`.) -/
def renderLine (current : List (String × String)) (i : String) : String :=
  let title := ((current.find? fun e => e.1 == i).map Prod.snd).getD ""
  match lookupPos current i with
  | some p => "#" ++ pad2 p ++ " — " ++ title
  | none => "#? — " ++ title

/-- The `lines` list of lines 151-155, for a given id list. -/
def renderLines (current : List (String × String)) (ids : List String) :
    List String :=
  ids.map (renderLine current)

/-- Lines 156-163: intro selection and full message assembly. -/
def buildMsg (alwaysAlert : Bool) (newIdsEmpty : Bool) (lines : List String) :
    String :=
  let intro :=
    if alwaysAlert && newIdsEmpty then "Тестовое уведомление (ручной запуск):"
    else "Появились <b>новые тайтлы</b>:"
  "<b>Webnovel • Monthly Power Rank</b>\n" ++ intro ++ "\n\n"
    ++ String.intercalate "\n" lines
    ++ "\n\nИсточник: https://www.webnovel.com/ranking/novel/monthly/power_rank"

/-- `main` (lines 130-168) after a successful fetch: parse, abort if empty,
diff against the loaded state, first-run branch, notify branch, and the
final `save_seen_ids`. -/
def mainRun (inp : RunInput) : RunTrace :=
  let current := parse_titles inp.markup
  if current.isEmpty then ⟨.fatalEmptyParse, none, none, none⟩
  else
    let current_ids := current.map Prod.fst
    let seen_ids := load_seen_ids inp.stateFile
    let first_run := inp.stateFile.isNone
    let new_ids := new_ids_of current_ids seen_ids
    if first_run && !inp.alwaysAlert then
      ⟨.done, some new_ids, none, some (save_seen_ids current_ids current)⟩
    else if !new_ids.isEmpty || inp.alwaysAlert then
      let lines :=
        renderLines current (if !new_ids.isEmpty then new_ids else current_ids.take 5)
      let msg := buildMsg inp.alwaysAlert new_ids.isEmpty lines
      match send_telegram inp.token inp.chatId inp.postOutcome msg with
      | .error e => ⟨.notifyExc e, some new_ids, some (msg, lines), none⟩
      | .ok _ =>
        ⟨.done, some new_ids, some (msg, lines),
         some (save_seen_ids current_ids current)⟩
    else ⟨.done, some new_ids, none, some (save_seen_ids current_ids current)⟩

/-- `PostOutcome.transportErr` recogniser. -/
def isTransportErr : PostOutcome → Bool
  | .transportErr => true
  | .status _ _ => false

/-! ## Concrete inputs used by witnesses, counterexamples and scenarios -/

/-- Prior state `["10","20","30"]`, current fetch for ids `20,30,40` (the
diff scenario of the spec). -/
def inpC4 : RunInput :=
  ⟨[⟨"/book/20", "Bravo"⟩, ⟨"/book/30", "Charlie"⟩, ⟨"/book/40", "Delta"⟩],
   some (.good ["10", "20", "30"]), none, none, false, .status 200 ""⟩

/-- A first run (no state file, override unset) with credentials present and
a transport-error-prone notification sink. -/
def inpC5 : RunInput :=
  ⟨[⟨"/book/7", "Seven"⟩], none, some "T", some "C", false, .transportErr⟩

/-- A run with an existing but corrupt state file and the override unset. -/
def inpC10 : RunInput :=
  ⟨[⟨"/book/1", "Alpha"⟩, ⟨"/book/2", "Beta"⟩],
   some .corrupt, none, none, false, .status 200 ""⟩

/-- First run (6 distinct current entries) with the always-alert override
set. -/
def inpC3 : RunInput :=
  ⟨[⟨"/book/1", "Alpha"⟩, ⟨"/book/2", "Beta"⟩, ⟨"/book/3", "Gamma"⟩,
    ⟨"/book/4", "Delta"⟩, ⟨"/book/5", "Epsilon"⟩, ⟨"/book/6", "Zeta"⟩],
   none, some "T", some "C", true, .status 200 "ok"⟩

/-- A non-first run with one new id, credentials present, and a
transport-level error at the notification POST. -/
def inpC2 : RunInput :=
  ⟨[⟨"/book/1", "Alpha"⟩], some (.good []), some "T", some "C", false,
   .transportErr⟩

/-- A non-first run with one new id, credentials present, and a 500
response from the notification POST. -/
def inpC2w : RunInput :=
  ⟨[⟨"/book/1", "Alpha"⟩, ⟨"/book/9", "Ixia"⟩], some (.good ["1"]),
   some "T", some "C", false, .status 500 "err"⟩

/-- First run over a one-entry markup (run 1 of the idempotence pair). -/
def inpC9a : RunInput :=
  ⟨[⟨"/book/1", "Alpha"⟩], none, none, none, false, .status 200 ""⟩

/-- Second run over the identical markup, seeded with run 1's persisted
ids. -/
def inpC9b : RunInput :=
  ⟨[⟨"/book/1", "Alpha"⟩], some (.good ["1"]), none, none, false,
   .status 200 ""⟩

/-- Markup with 60 distinct matching anchors in document order. -/
def anchors60 : List Anchor :=
  (List.range 60).map fun n =>
    ⟨"/book/" ++ toString (n + 1), "Title " ++ toString (n + 1)⟩

/-- The fetch scenario: HTTP 500 on attempts 1-3, success on attempt 4. -/
def f500 : Nat → AttemptOutcome := fun i =>
  if i ≤ 3 then .resp 500 "" else .resp 200 "<html>rank</html>"

/-- Zero jitter (the lower bound of `random.uniform(0, 0.8)`). -/
def jit0 : Nat → ℚ := fun _ => 0

/-! ## Helper lemmas -/

lemma contains_eq_false_iff (l : List String) (x : String) :
    l.contains x = false ↔ x ∉ l := by
  simp [List.contains]

lemma new_ids_of_mem (C S : List String) (x : String) :
    x ∈ new_ids_of C S ↔ x ∈ C ∧ x ∉ S := by
  simp [new_ids_of, List.mem_filter]

lemma new_ids_of_sublist (C S : List String) : (new_ids_of C S).Sublist C :=
  List.filter_sublist C

lemma new_ids_of_congr (C S S' : List String)
    (h : ∀ x, x ∈ S ↔ x ∈ S') : new_ids_of C S = new_ids_of C S' := by
  unfold new_ids_of
  refine List.filter_congr fun a _ => ?_
  by_cases hmem : a ∈ S
  · simp [hmem, (h a).mp hmem]
  · have hmem' : a ∉ S' := fun h' => hmem ((h a).mpr h')
    simp [hmem, hmem']

lemma new_ids_of_superset (C S : List String) (h : ∀ x ∈ C, x ∈ S) :
    new_ids_of C S = [] := by
  unfold new_ids_of
  rw [List.filter_eq_nil_iff]
  intro a ha
  simp [h a ha]

lemma new_ids_of_nil (C : List String) : new_ids_of C [] = C := by
  simp [new_ids_of]

/-- `mainRun` records `new_ids_of current_ids seen_ids` as its diff in every
branch that passes the empty-parse check. -/
lemma mainRun_newIds (inp : RunInput)
    (h : (parse_titles inp.markup).isEmpty = false) :
    (mainRun inp).newIds =
      some (new_ids_of ((parse_titles inp.markup).map Prod.fst)
        (load_seen_ids inp.stateFile)) := by
  unfold mainRun
  rw [if_neg (by simp [h])]
  dsimp only
  split
  · rfl
  split
  · split <;> rfl
  · rfl

/-! ## Claims -/

/-- C4: for every ordered current id list `C` and previously-seen collection
`S`, the diff computed by the run (line 139) is the comprehension
`[x for x in C if x not in S]`: an id is in the diff iff it occurs in `C`
and not in `S`; the diff preserves the order of `C` (it is a sublist of
`C`); membership in `S` is content-only (any `S'` with the same members
yields the same diff); and `mainRun` records exactly this diff whenever
parse succeeded. -/
theorem C4_diff_correctness :
    (∀ C S : List String,
      (∀ x, x ∈ new_ids_of C S ↔ x ∈ C ∧ x ∉ S) ∧
      (new_ids_of C S).Sublist C ∧
      ∀ S' : List String, (∀ x, x ∈ S ↔ x ∈ S') →
        new_ids_of C S = new_ids_of C S') ∧
    ∀ inp : RunInput, (parse_titles inp.markup).isEmpty = false →
      (mainRun inp).newIds =
        some (new_ids_of ((parse_titles inp.markup).map Prod.fst)
          (load_seen_ids inp.stateFile)) := by
  refine ⟨fun C S => ⟨new_ids_of_mem C S, new_ids_of_sublist C S,
    fun S' h => new_ids_of_congr C S S' h⟩, fun inp h => mainRun_newIds inp h⟩

/-- Witness for C4 at concrete inputs: the spec's diff scenario
(`S = ["10","20","30"]`, `C = ["20","30","40"]` → diff `["40"]`), an
instantiated membership fact, and seen-side order-independence at a
reordered seen list. -/
theorem C4_diff_correctness_witness :
    (mainRun inpC4).newIds =
      some (new_ids_of ((parse_titles inpC4.markup).map Prod.fst)
        (load_seen_ids inpC4.stateFile)) ∧
    ("40" ∈ new_ids_of ["20", "30", "40"] ["10", "20", "30"] ↔
      "40" ∈ ["20", "30", "40"] ∧ "40" ∉ ["10", "20", "30"]) ∧
    new_ids_of ["20", "30", "40"] ["10", "20", "30"] =
      new_ids_of ["20", "30", "40"] ["30", "20", "10"] := by
  refine ⟨C4_diff_correctness.2 inpC4 (by decide),
    (C4_diff_correctness.1 ["20", "30", "40"] ["10", "20", "30"]).1 "40",
    (C4_diff_correctness.1 ["20", "30", "40"] ["10", "20", "30"]).2.2
      ["30", "20", "10"] ?_⟩
  intro x
  constructor <;> intro hx <;> simp at hx ⊢ <;> tauto

/-- C1 counterexample: with both credentials present, a transport-level
error during the HTTP POST escapes `send_telegram` uncaught
(`requests.post` is outside the `try` block), so the notify operation does
raise to its caller. -/
theorem C1_counterexample :
    send_telegram (some "TOKEN") (some "CHAT") .transportErr "msg" =
      .error "transport error during requests.post" := rfl

/-- C1 (amended): if either credential environment variable is absent (or
empty) `send_telegram` skips delivery and returns; with credentials present
it raises iff the POST itself fails at transport level — every HTTP
response status, 2xx or not, is handled without raising (non-2xx via the
caught `raise_for_status`). -/
theorem C1_notify_raises_only_on_transport :
    ∀ (token chatId : Option String) (po : PostOutcome) (msg : String),
      ((credMissing token || credMissing chatId) = true →
        send_telegram token chatId po msg = .ok .skipped) ∧
      isRaised (send_telegram token chatId po msg) =
        (!(credMissing token || credMissing chatId) && isTransportErr po) := by
  intro t c po m
  constructor
  · intro h
    simp [send_telegram, h]
  · by_cases h : (credMissing t || credMissing c) = true
    · simp [send_telegram, h, isRaised]
    · cases po with
      | transportErr => simp [send_telegram, h, isRaised, isTransportErr]
      | status code body =>
        by_cases hcode : 400 ≤ code ∧ code < 600 <;>
          simp [send_telegram, h, isRaised, isTransportErr, hcode]

/-- Witness for C1 (amended) at concrete inputs: an unset token skips even a
transport-error-prone POST, and a 500 response does not raise. -/
theorem C1_notify_raises_only_on_transport_witness :
    send_telegram none (some "CHAT") .transportErr "msg" = .ok .skipped ∧
    isRaised (send_telegram (some "TOKEN") (some "CHAT")
      (.status 500 "oops") "msg") =
      (!(credMissing (some "TOKEN") || credMissing (some "CHAT")) &&
        isTransportErr (.status 500 "oops")) :=
  ⟨(C1_notify_raises_only_on_transport none (some "CHAT") .transportErr
      "msg").1 (by decide),
   (C1_notify_raises_only_on_transport (some "TOKEN") (some "CHAT")
      (.status 500 "oops") "msg").2⟩

/-- C5: when the persisted state file does not exist and the always-alert
override is unset, `send_telegram` is never called (no notification,
whatever the markup), and if parse succeeded the current state is persisted
and the run completes normally. -/
theorem C5_first_run_suppression :
    ∀ inp : RunInput, inp.stateFile = none → inp.alwaysAlert = false →
      (mainRun inp).notifyAttempt = none ∧
      ((parse_titles inp.markup).isEmpty = false →
        (mainRun inp).persisted =
          some (save_seen_ids ((parse_titles inp.markup).map Prod.fst)
            (parse_titles inp.markup)) ∧
        (mainRun inp).result = .done) := by
  intro inp h1 h2
  by_cases hc : (parse_titles inp.markup).isEmpty
  · refine ⟨by simp [mainRun, hc], fun h => ?_⟩
    rw [hc] at h
    cases h
  · have hc' : (parse_titles inp.markup).isEmpty = false := by
      simpa using hc
    constructor
    · simp [mainRun, hc', h1, h2]
    · intro _
      constructor <;> simp [mainRun, hc', h1, h2]

/-- Witness for C5 at a concrete input: a first run with credentials present
and a transport-error-prone sink still notifies nothing and persists. -/
theorem C5_first_run_suppression_witness :
    (mainRun inpC5).notifyAttempt = none ∧
    (mainRun inpC5).persisted = some (["7"], [("7", "Seven")]) := by
  have h := C5_first_run_suppression inpC5 rfl rfl
  refine ⟨h.1, ?_⟩
  rw [(h.2 (by decide)).1]
  decide

/-- C10: if the state file exists but is corrupt, `load_seen_ids` yields
`[]` while the run is not a first run (`first_run` tests only existence),
so every current id is new and a notification listing all current ids is
attempted even with the override unset. -/
theorem C10_corrupt_state_alerts_everything :
    ∀ inp : RunInput, inp.stateFile = some .corrupt → inp.alwaysAlert = false →
      (parse_titles inp.markup).isEmpty = false →
      load_seen_ids inp.stateFile = [] ∧
      (mainRun inp).newIds = some ((parse_titles inp.markup).map Prod.fst) ∧
      (mainRun inp).notifyAttempt =
        some (buildMsg false false
            (renderLines (parse_titles inp.markup)
              ((parse_titles inp.markup).map Prod.fst)),
          renderLines (parse_titles inp.markup)
            ((parse_titles inp.markup).map Prod.fst)) := by
  intro inp h1 h2 hc
  have hload : load_seen_ids inp.stateFile = [] := by rw [h1]; rfl
  have hids : ((parse_titles inp.markup).map Prod.fst).isEmpty = false := by
    cases hp : parse_titles inp.markup with
    | nil => rw [hp] at hc; cases hc
    | cons e rest => simp [hp]
  refine ⟨hload, ?_, ?_⟩
  · rw [mainRun_newIds inp hc, hload, new_ids_of_nil]
  · unfold mainRun
    rw [if_neg (by simp [hc]), h1, h2]
    dsimp only [load_seen_ids, Option.isNone]
    rw [new_ids_of_nil, hids]
    simp only [Bool.false_and, Bool.not_false, Bool.true_or, Bool.or_false,
      Bool.false_eq_true, if_false]
    simp only [if_true]
    split <;> rfl

/-- Witness for C10 at a concrete input: corrupt state, two current
entries, override unset → both ids are new and both lines are in the
attempted message. -/
theorem C10_corrupt_state_alerts_everything_witness :
    load_seen_ids inpC10.stateFile = [] ∧
    (mainRun inpC10).newIds =
      some ((parse_titles inpC10.markup).map Prod.fst) ∧
    (mainRun inpC10).notifyAttempt =
      some (buildMsg false false
          (renderLines (parse_titles inpC10.markup)
            ((parse_titles inpC10.markup).map Prod.fst)),
        renderLines (parse_titles inpC10.markup)
          ((parse_titles inpC10.markup).map Prod.fst)) :=
  C10_corrupt_state_alerts_everything inpC10 rfl rfl (by decide)

lemma map_fst_isEmpty_false (l : List (String × String))
    (h : l.isEmpty = false) : (l.map Prod.fst).isEmpty = false := by
  cases l <;> simp_all

/-- With credentials missing or a non-transport-error POST outcome,
`send_telegram` returns normally. -/
lemma send_telegram_ok (t c : Option String) (po : PostOutcome)
    (h : (credMissing t || credMissing c || !isTransportErr po) = true)
    (m : String) : ∃ l, send_telegram t c po m = Except.ok l := by
  unfold send_telegram
  by_cases hcred : (credMissing t || credMissing c) = true
  · simp [hcred]
  · have hcred' : (credMissing t || credMissing c) = false := by
      simpa using hcred
    rw [hcred']
    simp only [Bool.false_eq_true, if_false]
    cases po with
    | transportErr =>
      rw [hcred'] at h
      simp [isTransportErr] at h
    | status s b =>
      by_cases hs : 400 ≤ s ∧ s < 600 <;> simp [hs]

/-- Inversion of the final persist: whenever a `main` run records a persisted
payload, that payload is exactly the current entry list and its id
projection, and the parse was non-empty. -/
lemma mainRun_persisted_inv (inp : RunInput) (ids : List String)
    (snap : List (String × String))
    (h : (mainRun inp).persisted = some (ids, snap)) :
    (parse_titles inp.markup).isEmpty = false ∧
    snap = parse_titles inp.markup ∧
    ids = (parse_titles inp.markup).map Prod.fst := by
  unfold mainRun at h
  by_cases hc : (parse_titles inp.markup).isEmpty
  · rw [if_pos hc] at h
    simp at h
  · have hc' : (parse_titles inp.markup).isEmpty = false := by simpa using hc
    rw [if_neg (by simp [hc'])] at h
    dsimp only at h
    refine ⟨hc', ?_⟩
    split at h
    · simp [save_seen_ids] at h
      exact ⟨h.2.symm, h.1.symm⟩
    split at h
    · split at h
      · simp at h
      · simp [save_seen_ids] at h
        exact ⟨h.2.symm, h.1.symm⟩
    · simp [save_seen_ids] at h
      exact ⟨h.2.symm, h.1.symm⟩

/-- C3 counterexample: on a first run with the override set and 6 current
entries, the attempted notification renders one line per current entry
(6 lines), not the fixed-size 5-entry sample the claim describes — the
sample branch (`current_ids[:5]`) is taken only when `new_ids` is empty,
and on a first run every current id is new. -/
theorem C3_counterexample :
    ((mainRun inpC3).notifyAttempt.map fun a => a.2.length) = some 6 ∧
    ¬((mainRun inpC3).notifyAttempt.map fun a => a.2.length) = some 5 := by
  constructor <;> decide

/-- C3 (amended): on the very first run with the always-alert override set,
the run does not suppress the alert; but since no prior ids exist, every
current id is new, so the notification reports **all** current entries as
new titles (with the new-titles intro) — the fixed-size sample is used only
when the override is set and no new ids exist. -/
theorem C3_first_run_override_alerts_all :
    ∀ inp : RunInput, inp.stateFile = none → inp.alwaysAlert = true →
      (parse_titles inp.markup).isEmpty = false →
      (mainRun inp).newIds = some ((parse_titles inp.markup).map Prod.fst) ∧
      (mainRun inp).notifyAttempt =
        some (buildMsg true false
            (renderLines (parse_titles inp.markup)
              ((parse_titles inp.markup).map Prod.fst)),
          renderLines (parse_titles inp.markup)
            ((parse_titles inp.markup).map Prod.fst)) := by
  intro inp h1 h2 hc
  have hids : ((parse_titles inp.markup).map Prod.fst).isEmpty = false :=
    map_fst_isEmpty_false _ hc
  constructor
  · rw [mainRun_newIds inp hc, h1]
    dsimp only [load_seen_ids]
    rw [new_ids_of_nil]
  · unfold mainRun
    rw [if_neg (by simp [hc]), h1, h2]
    dsimp only [load_seen_ids, Option.isNone]
    rw [new_ids_of_nil, hids]
    simp only [Bool.not_true, Bool.and_false, Bool.not_false, Bool.true_or,
      Bool.or_true, Bool.false_eq_true, if_false, if_true]
    split <;> rfl

/-- Witness for C3 (amended) at the concrete first-run input with the
override set. -/
theorem C3_first_run_override_alerts_all_witness :
    (mainRun inpC3).newIds =
      some ((parse_titles inpC3.markup).map Prod.fst) ∧
    (mainRun inpC3).notifyAttempt =
      some (buildMsg true false
          (renderLines (parse_titles inpC3.markup)
            ((parse_titles inpC3.markup).map Prod.fst)),
        renderLines (parse_titles inpC3.markup)
          ((parse_titles inpC3.markup).map Prod.fst)) :=
  C3_first_run_override_alerts_all inpC3 rfl rfl (by decide)

/-- C2 counterexample: fetch and parse succeed (one entry), yet the run
aborts before the state-persist step — the notification POST hits a
transport-level error, which escapes `send_telegram` uncaught, so
`save_seen_ids` on line 168 is never reached. -/
theorem C2_counterexample :
    (parse_titles inpC2.markup).isEmpty = false ∧
    (mainRun inpC2).persisted = none ∧
    (mainRun inpC2).result =
      .notifyExc "transport error during requests.post" := by
  refine ⟨by decide, by decide, by decide⟩

/-- C2 (amended): whenever parse yields a non-empty entry list and the
notification POST cannot raise a transport-level error (credentials missing,
or any HTTP response status — 2xx or not), the run reaches the state-persist
step, rewrites the snapshot with the current ids, and completes normally,
regardless of whether new ids were found; a transport-level error during
the notification POST is a third way (besides fetch-exhaustion and
empty-parse) for a run to abort before persisting. -/
theorem C2_persist_unless_notify_transport_error :
    ∀ inp : RunInput, (parse_titles inp.markup).isEmpty = false →
      (credMissing inp.token || credMissing inp.chatId ||
        !isTransportErr inp.postOutcome) = true →
      (mainRun inp).persisted =
        some (save_seen_ids ((parse_titles inp.markup).map Prod.fst)
          (parse_titles inp.markup)) ∧
      (mainRun inp).result = .done := by
  intro inp hc h
  unfold mainRun
  rw [if_neg (by simp [hc])]
  dsimp only
  split
  · exact ⟨rfl, rfl⟩
  split
  · obtain ⟨l, hl⟩ := send_telegram_ok inp.token inp.chatId inp.postOutcome h _
    rw [hl]
    exact ⟨rfl, rfl⟩
  · exact ⟨rfl, rfl⟩

/-- Witness for C2 (amended) at a concrete input: one new id, credentials
present, the POST answers 500 (delivery failed) — still persisted, and
done. -/
theorem C2_persist_unless_notify_transport_error_witness :
    (mainRun inpC2w).persisted =
      some (save_seen_ids ((parse_titles inpC2w.markup).map Prod.fst)
        (parse_titles inpC2w.markup)) ∧
    (mainRun inpC2w).result = .done :=
  C2_persist_unless_notify_transport_error inpC2w (by decide) (by decide)

/-- C9: re-running with markup parsing to the same entry list is
idempotent: if run 1 persisted `(ids1, snap1)` and run 2 sees the same
parse with prior state exactly `ids1` (override unset), run 2 computes an
empty diff, calls no notification, and persists a payload content-equal to
run 1's. -/
theorem C9_idempotent_rerun :
    ∀ (inp1 inp2 : RunInput) (ids1 : List String)
      (snap1 : List (String × String)),
      parse_titles inp2.markup = parse_titles inp1.markup →
      (mainRun inp1).persisted = some (ids1, snap1) →
      inp2.stateFile = some (.good ids1) →
      inp2.alwaysAlert = false →
      (mainRun inp2).newIds = some [] ∧
      (mainRun inp2).notifyAttempt = none ∧
      (mainRun inp2).persisted = some (ids1, snap1) := by
  intro inp1 inp2 ids1 snap1 hm hp h2 h3
  obtain ⟨hc1, hsnap, hids⟩ := mainRun_persisted_inv inp1 ids1 snap1 hp
  have hparse2 : parse_titles inp2.markup = snap1 := by rw [hm, hsnap]
  have hc2 : (parse_titles inp2.markup).isEmpty = false := by
    rw [hparse2, hsnap]; exact hc1
  have hnew : new_ids_of ((parse_titles inp2.markup).map Prod.fst)
      ids1 = [] := by
    rw [hparse2, hids, hsnap]
    exact new_ids_of_superset _ _ fun x hx => hx
  unfold mainRun
  rw [if_neg (by simp [hc2]), h2, h3]
  dsimp only [load_seen_ids, Option.isNone]
  rw [hnew]
  simp only [List.isEmpty_nil, Bool.not_true, Bool.false_and, Bool.false_or,
    Bool.or_false, Bool.false_eq_true, if_false]
  refine ⟨by first | rfl | trivial, by first | rfl | trivial, ?_⟩
  rw [hparse2]
  dsimp only [save_seen_ids]
  rw [hsnap, ← hids]

/-- Witness for C9 at concrete runs: run 1 is a first run over a one-entry
markup; run 2 re-reads the identical markup with run 1's persisted ids. -/
theorem C9_idempotent_rerun_witness :
    (mainRun inpC9b).newIds = some [] ∧
    (mainRun inpC9b).notifyAttempt = none ∧
    (mainRun inpC9b).persisted = some (["1"], [("1", "Alpha")]) :=
  C9_idempotent_rerun inpC9a inpC9b ["1"] [("1", "Alpha")] rfl (by decide)
    rfl rfl

/-- Definitional unfolding of the loop body on a cons cell. -/
lemma parse_titles_aux_cons (a : Anchor) (rest : List Anchor)
    (seen : List String) :
    parse_titles_aux (a :: rest) seen =
      match extractBookId a.href with
      | none => parse_titles_aux rest seen
      | some bid =>
        if titleBlocked (pyStrip a.text) then parse_titles_aux rest seen
        else if seen.contains bid then parse_titles_aux rest seen
        else (bid, pyStrip a.text) :: parse_titles_aux rest (bid :: seen) :=
  rfl

/-- An anchor that fails the href pattern or the title filter contributes
nothing to the loop: `parse_titles_aux` steps over it unchanged. -/
lemma parse_titles_aux_skip (a : Anchor) (h : anchorKept a = false)
    (rest : List Anchor) (seen : List String) :
    parse_titles_aux (a :: rest) seen = parse_titles_aux rest seen := by
  unfold anchorKept at h
  rw [parse_titles_aux_cons]
  cases hx : extractBookId a.href with
  | none => rfl
  | some bid =>
    rw [hx] at h
    simp only [Option.isSome_some, Bool.true_and, Bool.not_eq_false'] at h
    dsimp only
    simp [h]

/-- A skipped anchor anywhere in the document leaves the whole extraction
unchanged, for every accumulator. -/
lemma parse_titles_aux_append_skip (a : Anchor) (h : anchorKept a = false) :
    ∀ (pre post : List Anchor) (seen : List String),
      parse_titles_aux (pre ++ a :: post) seen =
        parse_titles_aux (pre ++ post) seen := by
  intro pre
  induction pre with
  | nil => intro post seen; exact parse_titles_aux_skip a h post seen
  | cons b bs ih =>
    intro post seen
    simp only [List.cons_append]
    rw [parse_titles_aux_cons, parse_titles_aux_cons]
    cases hx : extractBookId b.href with
    | none => exact ih post seen
    | some bid =>
      dsimp only
      by_cases ht : titleBlocked (pyStrip b.text)
      · simp only [ht, if_true]
        exact ih post seen
      · by_cases hs : seen.contains bid
        · simp only [ht, hs, Bool.false_eq_true, if_false, if_true]
          exact ih post seen
        · simp only [ht, hs, Bool.false_eq_true, if_false]
          rw [ih post (bid :: seen)]

/-- C7: the Extractor excludes an anchor whose trimmed visible text lowers
to "read" or "add in library" even when its href matches the book-id
pattern, an anchor whose trimmed title is empty or shorter than 2
characters, and an anchor whose href does not match the numeric
book-identifier pattern: inserting such an anchor anywhere in the markup
leaves the extraction unchanged. -/
theorem C7_filter_exclusions :
    ∀ (a : Anchor) (pre post : List Anchor),
      (extractBookId a.href = none ∨
       pyLower (pyStrip a.text) = "read" ∨
       pyLower (pyStrip a.text) = "add in library" ∨
       (pyStrip a.text).length < 2) →
      parse_titles (pre ++ a :: post) = parse_titles (pre ++ post) := by
  intro a pre post h
  have hk : anchorKept a = false := by
    unfold anchorKept titleBlocked
    rcases h with h | h | h | h
    · simp [h]
    · simp [h]
    · simp [h]
    · simp [h]
  unfold parse_titles
  rw [parse_titles_aux_append_skip a hk pre post []]

/-- Witness for C7 at concrete anchors: an anchor titled "ReAd" with a
matching href (case-insensitive blocklist), one with a 1-character title,
and one whose href has no book id, each inserted mid-document, change
nothing. -/
theorem C7_filter_exclusions_witness :
    parse_titles [⟨"/book/1", "Alpha"⟩, ⟨"/book/99", "ReAd"⟩,
        ⟨"/book/2", "Beta"⟩] =
      parse_titles [⟨"/book/1", "Alpha"⟩, ⟨"/book/2", "Beta"⟩] ∧
    parse_titles [⟨"/book/1", "Alpha"⟩, ⟨"/book/98", "X"⟩,
        ⟨"/book/2", "Beta"⟩] =
      parse_titles [⟨"/book/1", "Alpha"⟩, ⟨"/book/2", "Beta"⟩] ∧
    parse_titles [⟨"/book/1", "Alpha"⟩, ⟨"/novel/97", "Gamma"⟩,
        ⟨"/book/2", "Beta"⟩] =
      parse_titles [⟨"/book/1", "Alpha"⟩, ⟨"/book/2", "Beta"⟩] :=
  ⟨C7_filter_exclusions ⟨"/book/99", "ReAd"⟩ [⟨"/book/1", "Alpha"⟩]
      [⟨"/book/2", "Beta"⟩] (Or.inr (Or.inl (by decide))),
   C7_filter_exclusions ⟨"/book/98", "X"⟩ [⟨"/book/1", "Alpha"⟩]
      [⟨"/book/2", "Beta"⟩] (Or.inr (Or.inr (Or.inr (by decide)))),
   C7_filter_exclusions ⟨"/novel/97", "Gamma"⟩ [⟨"/book/1", "Alpha"⟩]
      [⟨"/book/2", "Beta"⟩] (Or.inl (by decide))⟩

/-- The ids produced by the extraction loop are pairwise distinct and
disjoint from the accumulator. -/
lemma parse_titles_aux_ids (anchors : List Anchor) : ∀ seen : List String,
    ((parse_titles_aux anchors seen).map Prod.fst).Nodup ∧
    ∀ x ∈ (parse_titles_aux anchors seen).map Prod.fst, x ∉ seen := by
  induction anchors with
  | nil => intro seen; simp [parse_titles_aux]
  | cons a rest ih =>
    intro seen
    rw [parse_titles_aux_cons]
    cases hx : extractBookId a.href with
    | none => exact ih seen
    | some bid =>
      dsimp only
      by_cases ht : titleBlocked (pyStrip a.text)
      · simp only [ht, if_true]
        exact ih seen
      · by_cases hs : seen.contains bid
        · simp only [ht, hs, Bool.false_eq_true, if_false, if_true]
          exact ih seen
        · simp only [ht, hs, Bool.false_eq_true, if_false, List.map_cons]
          have h1 := (ih (bid :: seen)).1
          have h2 := (ih (bid :: seen)).2
          constructor
          · rw [List.nodup_cons]
            refine ⟨fun hmem => ?_, h1⟩
            exact h2 bid hmem (List.mem_cons_self bid seen)
          · intro x hxm
            rcases List.mem_cons.mp hxm with hxe | hxm'
            · subst hxe
              exact (contains_eq_false_iff seen x).mp (by simpa using hs)
            · intro hxs
              exact h2 x hxm' (List.mem_cons_of_mem bid hxs)

/-- The ids of the truncated extraction result are pairwise distinct. -/
lemma parse_titles_nodup (anchors : List Anchor) :
    ((parse_titles anchors).map Prod.fst).Nodup := by
  have h := (parse_titles_aux_ids anchors []).1
  exact h.sublist ((List.take_sublist 50 (parse_titles_aux anchors [])).map
    Prod.fst)

lemma range'_map_succ (s n : Nat) :
    (List.range' s n).map (· + 1) = List.range' (s + 1) n := by
  induction n generalizing s with
  | zero => rfl
  | succ n ih =>
    rw [List.range'_succ, List.range'_succ, List.map_cons, ih]

/-- In a list with pairwise-distinct first components, looking each element's
key back up yields exactly the 1-based positions `1, 2, ..., length`. -/
lemma lookupPos_map_ranks :
    ∀ l : List (String × String), (l.map Prod.fst).Nodup →
      l.map (fun e => lookupPos l e.1) =
        (List.range' 1 l.length).map some := by
  intro l
  induction l with
  | nil => intro _; rfl
  | cons e rest ih =>
    intro h
    rw [List.map_cons, List.nodup_cons] at h
    have hne : ∀ x ∈ rest, ¬(e.1 = x.1) := by
      intro x hxm heq
      exact h.1 (heq ▸ List.mem_map_of_mem Prod.fst hxm)
    rw [List.map_cons, List.length_cons, List.range'_succ, List.map_cons]
    congr 1
    · simp [lookupPos]
    · have hmapeq : rest.map (fun x => lookupPos (e :: rest) x.1)
          = rest.map (fun x => (lookupPos rest x.1).map (· + 1)) :=
        List.map_congr_left fun x hxm => by simp [lookupPos, hne x hxm]
      rw [hmapeq,
        show (fun x : String × String => (lookupPos rest x.1).map (· + 1))
            = (Option.map (· + 1)) ∘ (fun x => lookupPos rest x.1) from rfl,
        ← List.map_map, ih h.2, List.map_map, ← range'_map_succ 1 rest.length,
        List.map_map]
      rfl

/-- C6: for any markup whose matching anchors produce `N` distinct ids in
document order after filtering and first-occurrence deduplication
(`dedupAll`), the Extractor returns exactly `min N 50` entries in that
order, and ranking each returned entry by its 1-based position in the
result (`pos` in `main`) yields exactly `1, 2, ..., min N 50`; in
particular, 60 distinct matching anchors yield exactly 50 entries. -/
theorem C6_order_preservation :
    (∀ anchors : List Anchor,
      parse_titles anchors = (dedupAll anchors).take 50 ∧
      (parse_titles anchors).length = min (dedupAll anchors).length 50 ∧
      (parse_titles anchors).map (fun e => lookupPos (parse_titles anchors) e.1)
        = (List.range' 1 (min (dedupAll anchors).length 50)).map some) ∧
    (dedupAll anchors60).length = 60 ∧
    (parse_titles anchors60).length = 50 := by
  refine ⟨fun anchors => ?_, by decide, by decide⟩
  have hlen : (parse_titles anchors).length = min (dedupAll anchors).length 50 := by
    unfold parse_titles dedupAll
    rw [List.length_take, Nat.min_comm]
  exact ⟨rfl, hlen, by
    rw [lookupPos_map_ranks _ (parse_titles_nodup anchors), hlen]⟩

lemma fetchGo_attempts_le (f : Nat → AttemptOutcome) (jit : Nat → ℚ) :
    ∀ (r a : Nat), (fetchGo f jit a r).attempts ≤ r := by
  intro r
  induction r with
  | zero => intro a; simp [fetchGo]
  | succ r ih =>
    intro a
    cases h : attemptResult (f a) with
    | none => simp [fetchGo, h]; exact ih (a + 1)
    | some t => simp [fetchGo, h]

lemma fetchGo_sleeps_eq (f : Nat → AttemptOutcome) (jit : Nat → ℚ) :
    ∀ (r a : Nat), (fetchGo f jit a r).sleeps =
      (fetchGo f jit a r).warns.map fun i => 2 * 2 ^ (i - 1) + jit i := by
  intro r
  induction r with
  | zero => intro a; simp [fetchGo]
  | succ r ih =>
    intro a
    cases h : attemptResult (f a) with
    | none => simp [fetchGo, h]; exact ih (a + 1)
    | some t => simp [fetchGo, h]

lemma fetchGo_raised_iff (f : Nat → AttemptOutcome) (jit : Nat → ℚ) :
    ∀ (r a : Nat), isRaised (fetchGo f jit a r).result = true ↔
      ∀ i, a ≤ i → i < a + r → attemptResult (f i) = none := by
  intro r
  induction r with
  | zero =>
    intro a
    simp only [fetchGo, isRaised, true_iff]
    intro i h1 h2
    omega
  | succ r ih =>
    intro a
    cases h : attemptResult (f a) with
    | none =>
      simp only [fetchGo, h]
      rw [ih (a + 1)]
      constructor
      · intro H i h1 h2
        rcases eq_or_lt_of_le h1 with he | hl
        · rw [← he]; exact h
        · exact H i hl (by omega)
      · intro H i h1 h2
        exact H i (by omega) (by omega)
    | some t =>
      simp only [fetchGo, h, isRaised, Bool.false_eq_true, false_iff]
      intro H
      exact absurd (H a (le_refl a) (by omega)) (by simp [h])

/-- C8: `fetch_html_with_retries` makes at most 4 attempts, the sleep before
each retry is the exponential backoff `base 2 · 2^(attempt-1)` plus that
attempt's jitter, and it raises the fatal `SystemExit` iff all 4 attempts
fail; in the 500/500/500/success scenario it returns the 4th response body
with exactly 3 warning logs and sleeps 2, 4, 8 (at zero jitter). -/
theorem C8_fetch_retry_backoff :
    (∀ (f : Nat → AttemptOutcome) (jit : Nat → ℚ),
      (fetch_html_with_retries f jit).attempts ≤ 4 ∧
      (fetch_html_with_retries f jit).sleeps =
        (fetch_html_with_retries f jit).warns.map
          (fun i => 2 * 2 ^ (i - 1) + jit i) ∧
      (isRaised (fetch_html_with_retries f jit).result = true ↔
        (attemptResult (f 1) = none ∧ attemptResult (f 2) = none ∧
         attemptResult (f 3) = none ∧ attemptResult (f 4) = none))) ∧
    (fetch_html_with_retries f500 jit0).result = .ok "<html>rank</html>" ∧
    (fetch_html_with_retries f500 jit0).warns = [1, 2, 3] ∧
    (fetch_html_with_retries f500 jit0).warns.length = 3 ∧
    (fetch_html_with_retries f500 jit0).sleeps = [2, 4, 8] := by
  refine ⟨fun f jit => ⟨fetchGo_attempts_le f jit 4 1,
    fetchGo_sleeps_eq f jit 4 1, ?_⟩, rfl, rfl, rfl, ?_⟩
  · rw [fetch_html_with_retries, fetchGo_raised_iff f jit 4 1]
    constructor
    · intro H
      exact ⟨H 1 (by omega) (by omega), H 2 (by omega) (by omega),
        H 3 (by omega) (by omega), H 4 (by omega) (by omega)⟩
    · rintro ⟨h1, h2, h3, h4⟩ i hi1 hi2
      interval_cases i <;> assumption
  · have hs : (fetch_html_with_retries f500 jit0).sleeps
        = [2 * 2 ^ (1 - 1) + jit0 1, 2 * 2 ^ (2 - 1) + jit0 2,
           2 * 2 ^ (3 - 1) + jit0 3] := rfl
    rw [hs]
    norm_num [jit0]

